import Mathlib

/-!
Verification of the `PitmanBmi` leaky-bucket model
(`src/leakybucket/pitman_bmi.py`) against its natural-language
specification.

The embedding is shallow: real-valued model quantities become rationals,
the Python object becomes the structure `PitmanBmi`, and each method
becomes a Lean function.  Methods that can raise return an
`Except String` outcome paired with the post-call state (or buffer), so
that partial mutation before an exception is captured faithfully:
in `update`, the storage increment happens before the `leakiness`
attribute is read, so an undefined-attribute failure leaves the storage
already incremented while the step index is unchanged.
-/

namespace LeakyBucket

/-- The configuration mapping read by `initialize`: the forcing file path
and the twelve Pitman parameters (inert for the step recurrence). -/
structure Config where
  precipitation_file : String
  PI : ℚ
  AI : ℚ
  ZMIN : ℚ
  ZMAX : ℚ
  ST : ℚ
  SL : ℚ
  FT : ℚ
  GW : ℚ
  R : ℚ
  POW : ℚ
  TL : ℚ
  GLag : ℚ
deriving Repr

/-- The precipitation forcing dataset: a time coordinate (timestamps in
seconds) and the per-step precipitation values (`pr`, kg m-2 s-1). -/
structure ForcingData where
  times : List ℚ
  values : List ℚ
deriving Repr

/-- The mutable state of a `PitmanBmi` instance.  `leakiness` is an
`Option` because `initialize` never assigns that attribute: `none` models
the attribute being absent (reading it raises `AttributeError`). -/
structure PitmanBmi where
  timestep_size : ℚ
  current_timestep : ℕ
  end_timestep : ℕ
  storage : ℚ
  discharge : ℚ
  leakiness : Option ℚ
  precipitation : List ℚ
  PI : ℚ
  AI : ℚ
  ZMIN : ℚ
  ZMAX : ℚ
  ST : ℚ
  SL : ℚ
  FT : ℚ
  GW : ℚ
  R : ℚ
  POW : ℚ
  TL : ℚ
  GLag : ℚ
deriving Repr

/-- The config keys `initialize` looks up in `self.config` (the
`precipitation_file` plus the twelve Pitman parameter keys), in source
order.  `leakiness` is not among them. -/
def initializeConfigKeys : List String :=
  ["precipitation_file",
   "interception storage",
   "ratio of impervious to total area",
   "minimum catchment absorption rate",
   "maximum catchment absorption rate",
   "maximum moisture storage capacity",
   "moisture storage capacity below which no runoff occurs",
   "runoff from moisture storage at full capacity",
   "maximum groundwater runoff",
   "evaporation-moisture storage relationship parameter",
   "power of the moisture storage-runoff equation",
   "lag for surface and soil moisture",
   "lag for groundwater runoff"]

/-- `PitmanBmi.initialize`: loads the forcing, derives the step size from
the first two timestamps, zeroes the state, and copies the twelve Pitman
parameters out of the config.  It never assigns `leakiness`. -/
def initModel (cfg : Config) (pr : ForcingData) : PitmanBmi :=
  { timestep_size := pr.times.getD 1 0 - pr.times.getD 0 0
    current_timestep := 0
    end_timestep := pr.times.length
    storage := 0
    discharge := 0
    leakiness := none
    precipitation := pr.values
    PI := cfg.PI
    AI := cfg.AI
    ZMIN := cfg.ZMIN
    ZMAX := cfg.ZMAX
    ST := cfg.ST
    SL := cfg.SL
    FT := cfg.FT
    GW := cfg.GW
    R := cfg.R
    POW := cfg.POW
    TL := cfg.TL
    GLag := cfg.GLag }

/-- `PitmanBmi.update`: one model step.  Guarded no-op past the end of
the series; otherwise adds the step's precipitation to storage, computes
the discharge from `leakiness`, removes the discharged depth, and
advances the step index.  The result pairs the outcome (raised error or
`ok`) with the state after the call: an out-of-range forcing index fails
before any mutation, while a missing `leakiness` attribute fails after
the storage increment has already been committed. -/
def update (m : PitmanBmi) : Except String Unit × PitmanBmi :=
  if m.current_timestep < m.end_timestep then
    match m.precipitation.get? m.current_timestep with
    | none => (Except.error "IndexError", m)
    | some p =>
      let m1 := { m with storage := m.storage + p * m.timestep_size }
      match m1.leakiness with
      | none => (Except.error "AttributeError: leakiness", m1)
      | some k =>
        let discharge := m1.storage * k
        let storage2 := m1.storage - discharge * (m1.timestep_size / 24 / 3600)
        (Except.ok (),
          { m1 with
              discharge := discharge
              storage := storage2
              current_timestep := m1.current_timestep + 1 })
  else
    (Except.ok (), m)

/-- `PitmanBmi.get_component_name`. -/
def get_component_name : String := "leakybucket"

/-- `PitmanBmi.get_value`: fills the destination buffer with the named
variable (discharge is converted back to a per-day rate) and returns it.
The result pairs the returned value (or raised error) with the buffer
after the call; on the unknown-variable error the buffer is untouched. -/
def get_value (m : PitmanBmi) (var_name : String) (dest : List ℚ) :
    Except String (List ℚ) × List ℚ :=
  if var_name = "storage" then
    (Except.ok (dest.map fun _ => m.storage), dest.map fun _ => m.storage)
  else if var_name = "discharge" then
    (Except.ok (dest.map fun _ =>
        m.discharge / (m.timestep_size / 24 / 3600)),
      dest.map fun _ => m.discharge / (m.timestep_size / 24 / 3600))
  else
    (Except.error ("Unknown variable " ++ var_name), dest)

/-- `PitmanBmi.get_var_units`. -/
def get_var_units (var_name : String) : Except String String :=
  if var_name = "storage" then Except.ok "m"
  else if var_name = "discharge" then Except.ok "m d-1"
  else Except.error ("Unknown variable " ++ var_name)

/-- `PitmanBmi.set_value`: only `storage` may be assigned; it is
overwritten with the first element of the source buffer.  The result
pairs the outcome with the state after the call; on the
unsupported-assignment error the state is unchanged. -/
def set_value (m : PitmanBmi) (var_name : String) (src : List ℚ) :
    Except String Unit × PitmanBmi :=
  if var_name = "storage" then
    match src with
    | [] => (Except.error "IndexError", m)
    | v :: _ => (Except.ok (), { m with storage := v })
  else
    (Except.error ("Cannot set value of var " ++ var_name), m)

/-- `PitmanBmi.get_output_var_names`. -/
def get_output_var_names : List String := ["discharge"]

/-- A concrete witness state: step duration one day, leak coefficient
1/10, three forcing steps. -/
def testState : PitmanBmi :=
  { timestep_size := 86400
    current_timestep := 0
    end_timestep := 3
    storage := 0
    discharge := 2
    leakiness := some (1 / 10)
    precipitation := [10 / 86400, 0, 0]
    PI := 0
    AI := 0
    ZMIN := 0
    ZMAX := 0
    ST := 0
    SL := 0
    FT := 0
    GW := 0
    R := 0
    POW := 0
    TL := 0
    GLag := 0 }

/-- A concrete witness config (parameters inert for the recurrence). -/
def testConfig : Config :=
  { precipitation_file := "precip.nc"
    PI := 0
    AI := 0
    ZMIN := 0
    ZMAX := 0
    ST := 0
    SL := 0
    FT := 0
    GW := 0
    R := 0
    POW := 0
    TL := 0
    GLag := 0 }

/-- A concrete witness forcing series: daily timestamps, three values. -/
def testForcing : ForcingData :=
  { times := [0, 86400, 172800]
    values := [1, 2, 3] }

/-- Claim C1: for every state with `current_step < end_step`, storage `S`,
forcing value `p` at the current index, leak coefficient `k` and step
duration `Δt` seconds, one `update()` call succeeds and sets storage to
`S + pΔt - (S + pΔt) k (Δt/86400)`, discharge to `(S + pΔt) k`, and
increments the step index by exactly one. -/
theorem update_mass_balance (m : PitmanBmi) (k p : ℚ)
    (hlt : m.current_timestep < m.end_timestep)
    (hk : m.leakiness = some k)
    (hp : m.precipitation.get? m.current_timestep = some p) :
    (update m).1 = Except.ok () ∧
    (update m).2.storage =
      m.storage + p * m.timestep_size -
        (m.storage + p * m.timestep_size) * k * (m.timestep_size / 86400) ∧
    (update m).2.discharge = (m.storage + p * m.timestep_size) * k ∧
    (update m).2.current_timestep = m.current_timestep + 1 := by
  simp only [update, if_pos hlt, hp, hk]
  refine ⟨trivial, ?_, trivial, trivial⟩
  dsimp only
  ring

/-- Witness for C1 at the concrete state `testState`. -/
theorem update_mass_balance_witness :
    (update testState).1 = Except.ok () ∧
    (update testState).2.storage =
      testState.storage + (10 / 86400) * testState.timestep_size -
        (testState.storage + (10 / 86400) * testState.timestep_size) *
          (1 / 10) * (testState.timestep_size / 86400) ∧
    (update testState).2.discharge =
      (testState.storage + (10 / 86400) * testState.timestep_size) *
        (1 / 10) ∧
    (update testState).2.current_timestep =
      testState.current_timestep + 1 :=
  update_mass_balance testState (1 / 10) (10 / 86400)
    (by decide) rfl rfl

/-- Claim C2: for every state with `current_step >= end_step`, `update()`
returns without raising and changes no field, and a repeated call on the
result is the same no-op. -/
theorem update_past_end_noop (m : PitmanBmi)
    (h : m.end_timestep ≤ m.current_timestep) :
    update m = (Except.ok (), m) ∧
    update (update m).2 = (Except.ok (), m) := by
  have hguard : ¬ m.current_timestep < m.end_timestep := Nat.not_lt.mpr h
  constructor
  · simp only [update, if_neg hguard]
  · simp only [update, if_neg hguard]

/-- Witness for C2 at a concrete exhausted state. -/
theorem update_past_end_noop_witness :
    update { testState with current_timestep := 3 } =
      (Except.ok (), { testState with current_timestep := 3 }) ∧
    update (update { testState with current_timestep := 3 }).2 =
      (Except.ok (), { testState with current_timestep := 3 }) :=
  update_past_end_noop { testState with current_timestep := 3 }
    (by decide)

/-- Claim C3: `get_value "discharge"` fills the destination with
`discharge / (Δt/86400)` and returns that buffer, without touching model
state (the function does not produce a state); multiplying any returned
entry back by `Δt/86400` recovers the internal discharge exactly
(the step duration being nonzero). -/
theorem get_value_discharge_round_trip (m : PitmanBmi) (dest : List ℚ)
    (h : m.timestep_size ≠ 0) :
    (get_value m "discharge" dest).1 =
      Except.ok (dest.map fun _ =>
        m.discharge / (m.timestep_size / 86400)) ∧
    (get_value m "discharge" dest).2 =
      dest.map (fun _ => m.discharge / (m.timestep_size / 86400)) ∧
    ∀ x ∈ (get_value m "discharge" dest).2,
      x * (m.timestep_size / 86400) = m.discharge := by
  have hn : m.timestep_size / 86400 ≠ 0 := div_ne_zero h (by norm_num)
  have hgv : get_value m "discharge" dest =
      (Except.ok (dest.map fun _ =>
        m.discharge / (m.timestep_size / 24 / 3600)),
       dest.map fun _ => m.discharge / (m.timestep_size / 24 / 3600)) := rfl
  have hdiv : m.discharge / (m.timestep_size / 24 / 3600) =
      m.discharge / (m.timestep_size / 86400) := by
    ring
  rw [hgv]
  simp only [hdiv]
  refine ⟨trivial, trivial, ?_⟩
  intro x hx
  simp only [List.mem_map] at hx
  obtain ⟨_, _, rfl⟩ := hx
  exact div_mul_cancel₀ m.discharge hn

/-- Witness for C3 at `testState` with a two-element buffer. -/
theorem get_value_discharge_round_trip_witness :
    (get_value testState "discharge" [0, 0]).1 =
      Except.ok (List.map (fun _ =>
        testState.discharge / (testState.timestep_size / 86400)) [0, 0]) ∧
    (get_value testState "discharge" [0, 0]).2 =
      List.map (fun _ =>
        testState.discharge / (testState.timestep_size / 86400)) [0, 0] ∧
    ∀ x ∈ (get_value testState "discharge" [0, 0]).2,
      x * (testState.timestep_size / 86400) = testState.discharge :=
  get_value_discharge_round_trip testState [0, 0] (by decide)

/-- Claim C4: for every variable name outside
`\x7b"storage", "discharge"\x7d`, `get_value` raises `Unknown variable`
leaving the destination buffer exactly as supplied, and `get_var_units`
raises the same error; neither produces any model state change. -/
theorem unknown_variable_rejected (m : PitmanBmi) (dest : List ℚ)
    (name : String) (h1 : name ≠ "storage") (h2 : name ≠ "discharge") :
    get_value m name dest =
      (Except.error ("Unknown variable " ++ name), dest) ∧
    get_var_units name = Except.error ("Unknown variable " ++ name) := by
  constructor
  · simp only [get_value, if_neg h1, if_neg h2]
  · simp only [get_var_units, if_neg h1, if_neg h2]

/-- Witness for C4 at the concrete name `bogus`. -/
theorem unknown_variable_rejected_witness :
    get_value testState "bogus" [7] =
      (Except.error ("Unknown variable " ++ "bogus"), [7]) ∧
    get_var_units "bogus" =
      Except.error ("Unknown variable " ++ "bogus") :=
  unknown_variable_rejected testState [7] "bogus" (by decide) (by decide)

/-- Claim C5: `set_value "storage"` overwrites storage with the first
element of the source buffer, with no validation and no other field
changed; any other name (including `discharge`) raises
`Cannot set value of var` and leaves the state exactly unchanged. -/
theorem set_value_semantics (m : PitmanBmi) (v : ℚ) (rest src : List ℚ)
    (name : String) (h : name ≠ "storage") :
    set_value m "storage" (v :: rest) =
      (Except.ok (), { m with storage := v }) ∧
    set_value m name src =
      (Except.error ("Cannot set value of var " ++ name), m) := by
  constructor
  · rfl
  · simp only [set_value, if_neg h]

/-- Witness for C5 at `testState`, setting storage to `-5` and rejecting
`discharge`. -/
theorem set_value_semantics_witness :
    set_value testState "storage" [-5, 1] =
      (Except.ok (), { testState with storage := -5 }) ∧
    set_value testState "discharge" [3] =
      (Except.error ("Cannot set value of var " ++ "discharge"),
        testState) :=
  set_value_semantics testState (-5) [1] [3] "discharge" (by decide)

/-- Claim C6: after `set_value "storage" (v :: rest)`, an immediate
`get_value "storage"` fills the buffer with `v` (so its head is `v`),
and a subsequent `update()` uses `v` as the pre-step storage: the
post-step storage is `v + pΔt - (v + pΔt) k (Δt/86400)`. -/
theorem set_then_get_then_step (m : PitmanBmi) (v k p : ℚ)
    (rest dest : List ℚ)
    (hlt : m.current_timestep < m.end_timestep)
    (hk : m.leakiness = some k)
    (hp : m.precipitation.get? m.current_timestep = some p) :
    (get_value (set_value m "storage" (v :: rest)).2 "storage" dest).2 =
      dest.map (fun _ => v) ∧
    ((get_value (set_value m "storage" (v :: rest)).2 "storage"
        dest).2).head? = dest.head?.map (fun _ => v) ∧
    (update (set_value m "storage" (v :: rest)).2).2.storage =
      v + p * m.timestep_size -
        (v + p * m.timestep_size) * k * (m.timestep_size / 86400) := by
  have hset : (set_value m "storage" (v :: rest)).2 =
      { m with storage := v } := rfl
  refine ⟨?_, ?_, ?_⟩
  · rfl
  · cases dest <;> rfl
  · rw [hset]
    simp only [update, if_pos hlt, hp, hk]
    ring

/-- Witness for C6 at `testState` with `v = 5`. -/
theorem set_then_get_then_step_witness :
    (get_value (set_value testState "storage" (5 :: [])).2 "storage"
        [0]).2 = List.map (fun _ => (5 : ℚ)) [0] ∧
    ((get_value (set_value testState "storage" (5 :: [])).2 "storage"
        [0]).2).head? = (List.head? [(0 : ℚ)]).map (fun _ => (5 : ℚ)) ∧
    (update (set_value testState "storage" (5 :: [])).2).2.storage =
      5 + (10 / 86400) * testState.timestep_size -
        (5 + (10 / 86400) * testState.timestep_size) * (1 / 10) *
          (testState.timestep_size / 86400) :=
  set_then_get_then_step testState 5 (1 / 10) (10 / 86400) [] [0]
    (by decide) rfl rfl

/-- Claim C7: `get_var_units` returns `m` for `storage` and `m d-1` for
`discharge`; the function takes no model state, so the answers are
state-independent. -/
theorem get_var_units_values :
    get_var_units "storage" = Except.ok "m" ∧
    get_var_units "discharge" = Except.ok "m d-1" := by
  constructor
  · rfl
  · rfl

/-- Helper: the value of `update` below the end of the series when both
the forcing value and `leakiness` are available. -/
theorem update_eq_of_lt (m : PitmanBmi) (k p : ℚ)
    (hlt : m.current_timestep < m.end_timestep)
    (hk : m.leakiness = some k)
    (hp : m.precipitation.get? m.current_timestep = some p) :
    update m = (Except.ok (),
      { m with
          storage := m.storage + p * m.timestep_size -
            m.storage * k * (m.timestep_size / 24 / 3600) -
            p * m.timestep_size * k * (m.timestep_size / 24 / 3600)
          discharge := (m.storage + p * m.timestep_size) * k
          current_timestep := m.current_timestep + 1 }) := by
  simp only [update, if_pos hlt, hp, hk]
  refine Prod.ext rfl ?_
  dsimp only
  congr 1
  ring

/-- Helper: past the end of the series `update` is the identity. -/
theorem update_eq_of_ge (m : PitmanBmi)
    (h : m.end_timestep ≤ m.current_timestep) :
    update m = (Except.ok (), m) := by
  simp only [update, if_neg (Nat.not_lt.mpr h)]

/-- Helper: `set_value` never touches the step index fields. -/
theorem set_value_preserves_steps (m : PitmanBmi) (name : String)
    (src : List ℚ) :
    (set_value m name src).2.current_timestep = m.current_timestep ∧
    (set_value m name src).2.end_timestep = m.end_timestep := by
  by_cases hname : name = "storage"
  · subst hname
    cases src
    · exact ⟨rfl, rfl⟩
    · exact ⟨rfl, rfl⟩
  · have hval : set_value m name src =
        (Except.error ("Cannot set value of var " ++ name), m) := by
      simp only [set_value, if_neg hname]
    rw [hval]
    exact ⟨rfl, rfl⟩

/-- Claim C8: the invariant `0 <= current_step <= end_step` holds after
initialization and is preserved by `update`; `update` increments the
index by exactly one below `end_step` and never past it, and `set_value`
changes neither index field (the index fields are naturals, so the lower
bound is intrinsic). -/
theorem step_index_invariant (cfg : Config) (pr : ForcingData)
    (m : PitmanBmi) (name : String) (src : List ℚ) (k p : ℚ)
    (hinv : m.current_timestep ≤ m.end_timestep)
    (hk : m.leakiness = some k)
    (hp : m.precipitation.get? m.current_timestep = some p) :
    (initModel cfg pr).current_timestep = 0 ∧
    (initModel cfg pr).current_timestep ≤
      (initModel cfg pr).end_timestep ∧
    (update m).2.current_timestep ≤ (update m).2.end_timestep ∧
    (m.current_timestep < m.end_timestep →
      (update m).2.current_timestep = m.current_timestep + 1) ∧
    (m.end_timestep ≤ m.current_timestep →
      (update m).2.current_timestep = m.current_timestep) ∧
    (update m).2.end_timestep = m.end_timestep ∧
    (set_value m name src).2.current_timestep = m.current_timestep ∧
    (set_value m name src).2.end_timestep = m.end_timestep := by
  refine ⟨rfl, Nat.zero_le _, ?_, ?_, ?_, ?_,
    (set_value_preserves_steps m name src).1,
    (set_value_preserves_steps m name src).2⟩
  · by_cases hlt : m.current_timestep < m.end_timestep
    · rw [update_eq_of_lt m k p hlt hk hp]
      exact hlt
    · rw [update_eq_of_ge m (Nat.not_lt.mp hlt)]
      exact hinv
  · intro hlt
    rw [update_eq_of_lt m k p hlt hk hp]
  · intro hge
    rw [update_eq_of_ge m hge]
  · by_cases hlt : m.current_timestep < m.end_timestep
    · rw [update_eq_of_lt m k p hlt hk hp]
    · rw [update_eq_of_ge m (Nat.not_lt.mp hlt)]

/-- Witness for C8 at `testState`. -/
theorem step_index_invariant_witness :
    (initModel testConfig testForcing).current_timestep = 0 ∧
    (initModel testConfig testForcing).current_timestep ≤
      (initModel testConfig testForcing).end_timestep ∧
    (update testState).2.current_timestep ≤
      (update testState).2.end_timestep ∧
    (testState.current_timestep < testState.end_timestep →
      (update testState).2.current_timestep =
        testState.current_timestep + 1) ∧
    (testState.end_timestep ≤ testState.current_timestep →
      (update testState).2.current_timestep =
        testState.current_timestep) ∧
    (update testState).2.end_timestep = testState.end_timestep ∧
    (set_value testState "storage" [1]).2.current_timestep =
      testState.current_timestep ∧
    (set_value testState "storage" [1]).2.end_timestep =
      testState.end_timestep :=
  step_index_invariant testConfig testForcing testState "storage" [1]
    (1 / 10) (10 / 86400) (by decide) rfl rfl

/-- Claim C9: immediately after initialization, storage and discharge
are both zero, and `get_value` for either variable fills the caller's
buffer with zeros (the derived step duration being nonzero, as on any
non-degenerate time grid). -/
theorem init_zero_state (cfg : Config) (pr : ForcingData)
    (dest1 dest2 : List ℚ)
    (_h : pr.times.getD 1 0 ≠ pr.times.getD 0 0) :
    (initModel cfg pr).storage = 0 ∧
    (initModel cfg pr).discharge = 0 ∧
    (get_value (initModel cfg pr) "storage" dest1).2 =
      dest1.map (fun _ => 0) ∧
    (get_value (initModel cfg pr) "discharge" dest2).2 =
      dest2.map (fun _ => 0) := by
  refine ⟨rfl, rfl, rfl, ?_⟩
  show dest2.map (fun _ => (initModel cfg pr).discharge /
      ((initModel cfg pr).timestep_size / 24 / 3600)) =
    dest2.map (fun _ => 0)
  simp [initModel, zero_div]

/-- Witness for C9 at the concrete forcing `testForcing`. -/
theorem init_zero_state_witness :
    (initModel testConfig testForcing).storage = 0 ∧
    (initModel testConfig testForcing).discharge = 0 ∧
    (get_value (initModel testConfig testForcing) "storage" [1, 2]).2 =
      List.map (fun _ => (0 : ℚ)) [1, 2] ∧
    (get_value (initModel testConfig testForcing) "discharge"
        [3]).2 = List.map (fun _ => (0 : ℚ)) [3] :=
  init_zero_state testConfig testForcing [1, 2] [3] (by decide)

/-- Claim C10: `initialize` never assigns the `leakiness` attribute — it
is not among the config keys it reads — so the first `update` on a
freshly initialized model (with a nonempty forcing series, hence
`current_step < end_step`) hits the undefined-attribute error when it
reads `leakiness`, and the step index does not advance. -/
theorem leakiness_uninitialized (cfg : Config) (pr : ForcingData)
    (h1 : 0 < pr.times.length) (h2 : 0 < pr.values.length) :
    (initModel cfg pr).leakiness = none ∧
    "leakiness" ∉ initializeConfigKeys ∧
    (update (initModel cfg pr)).1 =
      Except.error "AttributeError: leakiness" ∧
    (update (initModel cfg pr)).2.current_timestep = 0 := by
  obtain ⟨a, t, hv⟩ : ∃ a t, pr.values = a :: t := by
    cases hval : pr.values with
    | nil =>
        rw [hval] at h2
        simp at h2
    | cons a t => exact ⟨a, t, rfl⟩
  refine ⟨rfl, by decide, ?_, ?_⟩
  · simp only [update, initModel, hv]
    rw [if_pos h1, List.get?_cons_zero]
  · simp only [update, initModel, hv]
    rw [if_pos h1, List.get?_cons_zero]

/-- Witness for C10 at the concrete config and forcing. -/
theorem leakiness_uninitialized_witness :
    (initModel testConfig testForcing).leakiness = none ∧
    "leakiness" ∉ initializeConfigKeys ∧
    (update (initModel testConfig testForcing)).1 =
      Except.error "AttributeError: leakiness" ∧
    (update (initModel testConfig testForcing)).2.current_timestep
      = 0 :=
  leakiness_uninitialized testConfig testForcing (by decide) (by decide)

end LeakyBucket
